import Mathlib

/-!
Shallow embedding of the `mael-rs` node runtime and broadcast protocol.

The embedding follows the Rust sources:
* `src/id_gen.rs` — the process-wide identifier generator (`AtomicU32` fetch-add);
* `src/bin/broadcast.rs` — the broadcast node: retry set, outstanding-send
  records (`BroadcastOkWaiter`), timeout-driven resend, and the four request
  arms (init / broadcast / read / topology);
* `src/lib.rs` — the runtime drain-and-dispatch step (`Node::run`);
* `src/seq_kv.rs` — the key-value collaborator response conversions.

Machine integers (`u32`) are modelled as `Nat` with explicit `% 2 ^ 32`
where overflow matters.  Rust `Instant` / `Duration` values are modelled as
`Nat` nanoseconds; `Instant::elapsed` is saturating subtraction `now - t`,
matching `Nat` subtraction.  Hash-map / hash-set iteration is modelled by a
list in some fixed order; hash-map keyed storage is modelled by association
lists with distinct keys.
-/

/-! ### Identifier generator (`src/id_gen.rs`)

`IdGen(AtomicU32)`; `next_id` is `fetch_add(1, AcqRel)`, which returns the
pre-increment value and wraps modulo `2 ^ 32` (atomic adds always wrap).
The concurrent fetch-add is linearizable, so the process-wide behaviour is
a sequence of calls on a single counter state, embedded as state passing. -/

def u32Mod : Nat := 2 ^ 32

/-- `IdGen::next_id`: return the current counter, store `(counter + 1) % 2^32`. -/
def IdGen.next_id (s : Nat) : Nat × Nat := (s, (s + 1) % u32Mod)

/-- Counter state after `n` calls to `next_id`, starting from the initial 0. -/
def IdGen.stateAfter : Nat → Nat
  | 0 => 0
  | n + 1 => (IdGen.next_id (IdGen.stateAfter n)).2

/-- Value returned by the `n`-th call (0-based) to the process-wide generator. -/
def IdGen.nthId (n : Nat) : Nat := (IdGen.next_id (IdGen.stateAfter n)).1

theorem IdGen.stateAfter_eq (n : Nat) : IdGen.stateAfter n = n % u32Mod := by
  induction n with
  | zero => rfl
  | succ n ih =>
      simp only [stateAfter, next_id, ih, u32Mod]
      omega

theorem IdGen.nthId_eq (n : Nat) : IdGen.nthId n = n % u32Mod := by
  simp [nthId, next_id, stateAfter_eq]

/-! ### Broadcast node (`src/bin/broadcast.rs`) -/

/-- `BROADCAST_RETRY_TIMEOUT = Duration::from_secs(1)`, in nanoseconds. -/
def BROADCAST_RETRY_TIMEOUT : Nat := 1000000000

/-- `2u32.pow(retries)`: release-mode Rust wraps on overflow, so the computed
factor is `2 ^ r % 2 ^ 32` (it overflows from `r = 32` on). -/
def pow2u32 (r : Nat) : Nat := 2 ^ r % u32Mod

/-- A broadcast request sent to a peer:
`Message::new(src, dest, Request::Broadcast { message }).with_id(msg_id)`. -/
structure SentBroadcast where
  src : String
  dest : String
  msg_id : Nat
  message : Nat
  deriving DecidableEq, Repr

/-- `BroadcastOkWaiter`: one outstanding-send record. -/
structure BroadcastOkWaiter where
  message_id : Nat
  last_sent : Nat
  retries : Nat
  dest : String
  message : Nat
  deriving DecidableEq, Repr

/-- `BroadcastOkWaiter::retry`: new id, new timestamp, incremented count. -/
def BroadcastOkWaiter.retry (w : BroadcastOkWaiter) (now new_message_id : Nat) :
    BroadcastOkWaiter :=
  { w with message_id := new_message_id, last_sent := now, retries := w.retries + 1 }

/-- `RetrySet`: map from original message id to the chain of retry ids
(`HashMap<u32, HashSet<u32>>`), as an association list with distinct keys. -/
structure RetrySet where
  messages : List (Nat × List Nat)
  deriving DecidableEq, Repr

/-- `RetrySet::register`: `messages.entry(original).or_default().insert(retry)`. -/
def RetrySet.register (rs : RetrySet) (original_message retry : Nat) : RetrySet :=
  if rs.messages.any (fun p => p.1 = original_message) then
    ⟨rs.messages.map (fun p =>
      if p.1 = original_message then
        (p.1, if retry ∈ p.2 then p.2 else p.2 ++ [retry])
      else p)⟩
  else
    ⟨rs.messages ++ [(original_message, [retry])]⟩

/-- `RetrySet::remove_chain_for_message`: find the chain containing `message`,
remove it, and return the chain's original id (`None` when not found). -/
def RetrySet.remove_chain_for_message (rs : RetrySet) (message : Nat) :
    Option Nat × RetrySet :=
  match rs.messages.find? (fun p => p.2.contains message) with
  | some p => (some p.1, ⟨rs.messages.filter (fun q => q.1 ≠ p.1)⟩)
  | none => (none, rs)

/-- Broadcast node state (`BroadcastNode`).  `id_gen` is the node-local
`IdGen(u32)` counter; `messages` is the `BTreeSet<u32>` value set;
`neighbours` is the `HashSet<String>` in its iteration order;
`awaiting_broadcast_ok` is the `HashMap<u32, BroadcastOkWaiter>` in its
iteration order, keyed by the original message id. -/
structure BroadcastNode where
  node_id : String
  id_gen : Nat
  messages : Finset Nat
  neighbours : List String
  retry_set : RetrySet
  awaiting_broadcast_ok : List (Nat × BroadcastOkWaiter)
  deriving DecidableEq

/-- The loop body of `BroadcastNode::rebroadcast_on_timeout`, iterating the
outstanding records while threading the id generator and the retry set and
collecting the emitted messages.  Per record: skip unless
`last_sent.elapsed() >= BROADCAST_RETRY_TIMEOUT * 2u32.pow(retries)`;
otherwise draw `new_message_id`, emit the payload `.with_id(message_id)`,
apply `entry.retry(new_message_id)`, and
`retry_set.register(original_message_id, message_id)`. -/
def rebroadcastLoop (node_id : String) (now : Nat)
    (waiters : List (Nat × BroadcastOkWaiter)) (gen : Nat) (rs : RetrySet) :
    List (Nat × BroadcastOkWaiter) × Nat × RetrySet × List SentBroadcast :=
  match waiters with
  | [] => ([], gen, rs, [])
  | (original_message_id, w) :: rest =>
      if now - w.last_sent < BROADCAST_RETRY_TIMEOUT * pow2u32 w.retries then
        let r := rebroadcastLoop node_id now rest gen rs
        ((original_message_id, w) :: r.1, r.2.1, r.2.2.1, r.2.2.2)
      else
        let new_message_id := (IdGen.next_id gen).1
        let gen1 := (IdGen.next_id gen).2
        let sent : SentBroadcast :=
          { src := node_id, dest := w.dest, msg_id := w.message_id,
            message := w.message }
        let w1 := w.retry now new_message_id
        let rs1 := rs.register original_message_id w.message_id
        let r := rebroadcastLoop node_id now rest gen1 rs1
        ((original_message_id, w1) :: r.1, r.2.1, r.2.2.1, sent :: r.2.2.2)

/-- `BroadcastNode::rebroadcast_on_timeout`. -/
def BroadcastNode.rebroadcast_on_timeout (n : BroadcastNode) (now : Nat) :
    BroadcastNode × List SentBroadcast :=
  let r := rebroadcastLoop n.node_id now n.awaiting_broadcast_ok n.id_gen n.retry_set
  ({ n with awaiting_broadcast_ok := r.1, id_gen := r.2.1, retry_set := r.2.2.1 },
   r.2.2.2)

/-- Inbound requests (`Request` in `broadcast.rs`).  The topology map is an
association list with distinct keys. -/
inductive BRequest where
  | init (node_id : String) (node_ids : List String)
  | broadcast (message : Nat)
  | read
  | topology (topology : List (String × List String))

/-- Responses (`Response` in `broadcast.rs`). -/
inductive BResponse where
  | initOk
  | broadcastOk
  | readOk (messages : Finset Nat)
  | topologyOk
  deriving DecidableEq

/-- The `Request::Broadcast` arm's neighbour loop: for each neighbour other
than `info.src`, draw a fresh id, send the value, insert an outstanding
record keyed by that id, and `retry_set.register(message_id, message_id)`. -/
def broadcastNeighbourLoop (info_src : String) (message now : Nat)
    (neighbours : List String) (n : BroadcastNode) :
    BroadcastNode × List SentBroadcast :=
  match neighbours with
  | [] => (n, [])
  | neighbour :: rest =>
      if neighbour = info_src then broadcastNeighbourLoop info_src message now rest n
      else
        let message_id := (IdGen.next_id n.id_gen).1
        let gen1 := (IdGen.next_id n.id_gen).2
        let sent : SentBroadcast :=
          { src := n.node_id, dest := neighbour, msg_id := message_id,
            message := message }
        let n1 : BroadcastNode :=
          { n with
            id_gen := gen1,
            awaiting_broadcast_ok := n.awaiting_broadcast_ok ++
              [(message_id,
                { message_id := message_id, last_sent := now, retries := 0,
                  dest := neighbour, message := message })],
            retry_set := n.retry_set.register message_id message_id }
        let r := broadcastNeighbourLoop info_src message now rest n1
        (r.1, sent :: r.2)

/-- `BroadcastNode::handle_request`: first `rebroadcast_on_timeout`, then the
four arms.  Returns the new state, the reply, and every message the handler
sent on the socket (timeout resends first, then the broadcast fan-out). -/
def BroadcastNode.handle_request (n : BroadcastNode) (request : BRequest)
    (info_src : String) (now : Nat) :
    BroadcastNode × BResponse × List SentBroadcast :=
  let r0 := n.rebroadcast_on_timeout now
  let n := r0.1
  let resends := r0.2
  match request with
  | .init node_id _ => ({ n with node_id := node_id }, .initOk, resends)
  | .broadcast message =>
      let n1 := { n with messages := insert message n.messages }
      let r := broadcastNeighbourLoop info_src message now n1.neighbours n1
      (r.1, .broadcastOk, resends ++ r.2)
  | .read => (n, .readOk n.messages, resends)
  | .topology topology =>
      let entry := (topology.lookup n.node_id).getD []
      let n1 := { n with neighbours := entry.filter (fun x => x ≠ n.node_id) }
      (n1, .topologyOk, resends)

/-- `BroadcastNode::handle_response`: on `BroadcastOk` with some
`in_reply_to`, remove the retry chain containing it and, when a chain was
found, drop the outstanding record keyed by the chain's original id;
anything else (including an absent `in_reply_to`) is a no-op. -/
def BroadcastNode.handle_response (n : BroadcastNode) (response : BResponse)
    (in_reply_to : Option Nat) : BroadcastNode :=
  match response with
  | .broadcastOk =>
      match in_reply_to with
      | none => n
      | some irt =>
          let r := n.retry_set.remove_chain_for_message irt
          match r.1 with
          | none => { n with retry_set := r.2 }
          | some o =>
              { n with
                retry_set := r.2,
                awaiting_broadcast_ok :=
                  n.awaiting_broadcast_ok.filter (fun p => p.1 ≠ o) }
  | _ => n

/-! ### Runtime drain-and-dispatch step (`src/lib.rs`, `Node::run`) -/

/-- `MessageBody<T>`: optional correlation id (`msg_id`) plus payload. -/
structure WMessageBody (T : Type) where
  id : Option Nat
  kind : T
  deriving DecidableEq, Repr

/-- `Message<T>` envelope: `{src, dest, body}`. -/
structure WMessage (T : Type) where
  src : String
  dest : String
  body : WMessageBody T
  deriving DecidableEq, Repr

/-- `Response<R>`: `in_reply_to` plus the inner payload. -/
structure WResponse (R : Type) where
  in_reply_to : Option Nat
  inner : R
  deriving DecidableEq, Repr

/-- `RequestResponse<Req, Res>`: inbound classification by shape. -/
inductive RequestResponse (Req Res : Type) where
  | request : Req → RequestResponse Req Res
  | response : WResponse Res → RequestResponse Req Res

/-- `Incoming<Req, Res, E>`: what the delivery channel carries. -/
inductive Incoming (Req Res E : Type) where
  | message : WMessage (RequestResponse Req Res) → Incoming Req Res E
  | event : E → Incoming Req Res E

/-- A `Node` implementation: the three handler functions.  A handler maps
its state and input to either an error or the new state plus whatever
messages it sent itself through the socket (`Out`); `handle_request`
additionally produces the reply value. -/
structure NodeImpl (S Req Res E Out Err : Type) where
  handle_request : S → Req → String → Except Err (S × Res × List Out)
  handle_response : S → Res → Option Nat → Except Err (S × List Out)
  handle_event : S → E → Except Err (S × List Out)

/-- One iteration of the drain loop in `Node::run`: receive one `Incoming`,
dispatch by classification, and — only for requests — wrap the handler's
result in a response envelope (src/dest swapped, `in_reply_to` and the
envelope's own `msg_id` both set to the request's `msg_id`) and emit it.
The result separates the handler's own sends (`List Out`) from the
runtime-emitted reply (`Option _`). -/
def runStep {S Req Res E Out Err : Type} (node : NodeImpl S Req Res E Out Err)
    (s : S) (incoming : Incoming Req Res E) :
    Except Err (S × List Out × Option (WMessage (WResponse Res))) :=
  match incoming with
  | .message m =>
      match m.body.kind with
      | .request req =>
          match node.handle_request s req m.src with
          | .error e => .error e
          | .ok (s1, response, outs) =>
              .ok (s1, outs,
                some { src := m.dest, dest := m.src,
                       body := { id := m.body.id,
                                 kind := { in_reply_to := m.body.id,
                                           inner := response } } })
      | .response r =>
          match node.handle_response s r.inner r.in_reply_to with
          | .error e => .error e
          | .ok (s1, outs) => .ok (s1, outs, none)
  | .event e =>
      match node.handle_event s e with
      | .error e1 => .error e1
      | .ok (s1, outs) => .ok (s1, outs, none)

/-- The reply envelope as the spec words it: src and dest swap the
request's, `in_reply_to` equals the request's `msg_id`, and it carries the
handler's result.  (Stated from the spec, to be compared with `runStep`.) -/
def specReplyEnvelope {T Res : Type} (m : WMessage T) (response : Res) :
    WMessage (WResponse Res) :=
  { src := m.dest, dest := m.src,
    body := { id := m.body.id,
              kind := { in_reply_to := m.body.id, inner := response } } }

/-! ### Key-value collaborator conversions (`src/seq_kv.rs`) -/

/-- `Response` from the `seq-kv` service. -/
inductive KvResponse where
  | readOk (value : String)
  | writeOk
  | casOk
  | error (code : Nat)
  deriving DecidableEq, Repr

/-- `ReadResponse`: payload of `SeqKv::read`. -/
structure ReadResponse where
  value : Option String
  deriving DecidableEq, Repr

/-- `TryFrom<Response> for ReadResponse`: `ReadOk {value}` gives
`Some value`, an error with code 20 gives `None`, anything else bails. -/
def ReadResponse.tryFrom : KvResponse → Except String ReadResponse
  | .readOk value => .ok ⟨some value⟩
  | .error code =>
      if code = 20 then .ok ⟨none⟩ else .error "incorrect response received"
  | _ => .error "incorrect response received"

/-- `CasResponse`: payload of `SeqKv::compare_and_set`. -/
inductive CasResponse where
  | ok
  | retry
  deriving DecidableEq, Repr

/-- `TryFrom<Response> for CasResponse`: `CasOk` gives `Ok`, an error with
code 22 gives `Retry`, anything else bails. -/
def CasResponse.tryFrom : KvResponse → Except String CasResponse
  | .casOk => .ok .ok
  | .error code =>
      if code = 22 then .ok .retry else .error "incorrect response received"
  | _ => .error "incorrect response received"

/-- `SeqKv::read`'s handling of the wire response it receives: deserialize
through `TryFrom` and project `.value` (`.map(|r| r.value)`). -/
def SeqKv.readResult (resp : KvResponse) : Except String (Option String) :=
  (ReadResponse.tryFrom resp).map (fun r => r.value)

/-- `SeqKv::compare_and_set`'s handling of the wire response: deserialize
through `TryFrom`. -/
def SeqKv.casResult (resp : KvResponse) : Except String CasResponse :=
  CasResponse.tryFrom resp

/-! ### Anti-entropy gossip (per-neighbour knowledge cache)

The gossip variant of the broadcast node is part of this repository but its
source file is not under `src/`; the definitions below are modelled from
the spec. -/

/-- Modelled from the spec: on a gossip tick, for a selected neighbour the
node computes the set difference between the full local value set and that
neighbour's knowledge cache and, if it is non-empty, sends it as one
batched gossip message (`none` = nothing sent).  The gossip node's source
file is missing from `src/`. -/
def gossipTickSend (values cache : Finset Nat) : Option (Finset Nat) :=
  let delta := values \ cache
  if delta = ∅ then none else some delta

/-- Modelled from the spec: on receiving the acknowledgment for a gossip
batch, the sent values are unioned into that neighbour's knowledge cache —
the only way the cache grows.  The gossip node's source file is missing
from `src/`. -/
def gossipOnAck (cache sent : Finset Nat) : Finset Nat := cache ∪ sent

/-! ### Claim C4 — the identifier generator -/

/-- C4 (corrected): every call to the process-wide generator returns the
pre-increment value of the counter, and any two distinct calls among the
first `2^32` return distinct values.  The counter is a `u32` and the atomic
fetch-and-add wraps modulo `2^32`, so distinctness does not hold for the
whole process lifetime (see the counterexample). -/
theorem IdGen.nthId_pre_increment_and_unique (i j : Nat) (hij : i < j)
    (hj : j < u32Mod) :
    IdGen.nthId i = IdGen.stateAfter i ∧ IdGen.nthId i ≠ IdGen.nthId j := by
  refine ⟨rfl, ?_⟩
  have hi : i % u32Mod = i := Nat.mod_eq_of_lt (lt_trans hij hj)
  have hjm : j % u32Mod = j := Nat.mod_eq_of_lt hj
  simp only [IdGen.nthId_eq, hi, hjm]
  omega

/-- Witness for C4's theorem at `i = 0`, `j = 1`. -/
theorem IdGen.nthId_pre_increment_and_unique_witness :
    (0 : Nat) < 1 ∧ 1 < u32Mod ∧
      (IdGen.nthId 0 = IdGen.stateAfter 0 ∧ IdGen.nthId 0 ≠ IdGen.nthId 1) :=
  ⟨by decide, by decide,
    IdGen.nthId_pre_increment_and_unique 0 1 (by decide) (by decide)⟩

/-- C4 counterexample: calls number `0` and number `2^32` are distinct calls
that return the same value, because the `u32` counter wraps. -/
theorem IdGen.nthId_wraps :
    IdGen.nthId u32Mod = IdGen.nthId 0 ∧ u32Mod ≠ 0 := by
  refine ⟨?_, by decide⟩
  simp [IdGen.nthId_eq]

/-! ### Claim C9 — key-value collaborator response conversions -/

/-- C9 (confirmed): `SeqKv::read` yields `Some value` exactly on
`read_ok {value}` and `None` exactly on an error with code 20;
`SeqKv::compare_and_set` yields `Ok` exactly on `cas_ok` and `Retry`
exactly on an error with code 22; every other response shape becomes a
typed failure (`Err`), propagated rather than crashing. -/
theorem SeqKv.response_conversions :
    (∀ (resp : KvResponse) (v : String),
        SeqKv.readResult resp = .ok (some v) ↔ resp = .readOk v) ∧
    (∀ resp : KvResponse,
        SeqKv.readResult resp = .ok none ↔ resp = .error 20) ∧
    (∀ resp : KvResponse,
        SeqKv.casResult resp = .ok .ok ↔ resp = .casOk) ∧
    (∀ resp : KvResponse,
        SeqKv.casResult resp = .ok .retry ↔ resp = .error 22) ∧
    (∀ resp : KvResponse, (∀ v, resp ≠ .readOk v) → resp ≠ .error 20 →
        SeqKv.readResult resp = .error "incorrect response received") ∧
    (∀ resp : KvResponse, resp ≠ .casOk → resp ≠ .error 22 →
        SeqKv.casResult resp = .error "incorrect response received") := by
  refine ⟨?_, ?_, ?_, ?_, ?_, ?_⟩
  · intro resp v
    cases resp with
    | readOk w => simp [SeqKv.readResult, ReadResponse.tryFrom, Except.map]
    | error c =>
        by_cases hc : c = 20 <;>
          simp [SeqKv.readResult, ReadResponse.tryFrom, Except.map, hc]
    | writeOk => simp [SeqKv.readResult, ReadResponse.tryFrom, Except.map]
    | casOk => simp [SeqKv.readResult, ReadResponse.tryFrom, Except.map]
  · intro resp
    cases resp with
    | readOk w => simp [SeqKv.readResult, ReadResponse.tryFrom, Except.map]
    | error c =>
        by_cases hc : c = 20 <;>
          simp [SeqKv.readResult, ReadResponse.tryFrom, Except.map, hc]
    | writeOk => simp [SeqKv.readResult, ReadResponse.tryFrom, Except.map]
    | casOk => simp [SeqKv.readResult, ReadResponse.tryFrom, Except.map]
  · intro resp
    cases resp with
    | casOk => simp [SeqKv.casResult, CasResponse.tryFrom]
    | error c =>
        by_cases hc : c = 22 <;> simp [SeqKv.casResult, CasResponse.tryFrom, hc]
    | writeOk => simp [SeqKv.casResult, CasResponse.tryFrom]
    | readOk w => simp [SeqKv.casResult, CasResponse.tryFrom]
  · intro resp
    cases resp with
    | casOk => simp [SeqKv.casResult, CasResponse.tryFrom]
    | error c =>
        by_cases hc : c = 22 <;> simp [SeqKv.casResult, CasResponse.tryFrom, hc]
    | writeOk => simp [SeqKv.casResult, CasResponse.tryFrom]
    | readOk w => simp [SeqKv.casResult, CasResponse.tryFrom]
  · intro resp hro he
    cases resp with
    | readOk w => exact absurd rfl (hro w)
    | error c =>
        have hc : c ≠ 20 := by intro h; exact he (by rw [h])
        simp [SeqKv.readResult, ReadResponse.tryFrom, Except.map, hc]
    | writeOk => simp [SeqKv.readResult, ReadResponse.tryFrom, Except.map]
    | casOk => simp [SeqKv.readResult, ReadResponse.tryFrom, Except.map]
  · intro resp hco he
    cases resp with
    | casOk => exact absurd rfl hco
    | error c =>
        have hc : c ≠ 22 := by intro h; exact he (by rw [h])
        simp [SeqKv.casResult, CasResponse.tryFrom, hc]
    | writeOk => simp [SeqKv.casResult, CasResponse.tryFrom]
    | readOk w => simp [SeqKv.casResult, CasResponse.tryFrom]

/-- Witness for C9's theorem: a `write_ok` reaching either conversion is a
typed failure. -/
theorem SeqKv.response_conversions_witness :
    SeqKv.readResult KvResponse.writeOk = .error "incorrect response received" ∧
    SeqKv.casResult KvResponse.writeOk = .error "incorrect response received" :=
  ⟨SeqKv.response_conversions.2.2.2.2.1 KvResponse.writeOk
      (fun v h => by cases h) (fun h => by cases h),
    SeqKv.response_conversions.2.2.2.2.2 KvResponse.writeOk
      (fun h => by cases h) (fun h => by cases h)⟩

/-! ### Claim C3 — gossip delta and knowledge cache (spec-modelled) -/

/-- C3 (confirmed, spec-modelled): a gossip tick sends exactly the set
difference `values \ cache` to the selected neighbour as one batch, and
nothing when the difference is empty; the cache grows only by unioning the
sent values on acknowledgment.  Instantiated on the claim's scenario:
values `{1,2,3}`, cache `{1}` — the tick sends exactly `{2,3}`, after the
acknowledgment the cache is `{1,2,3}`, and the next tick sends nothing. -/
theorem gossip_delta_correct :
    (∀ values cache d : Finset Nat,
        gossipTickSend values cache = some d → d = values \ cache ∧ d ≠ ∅) ∧
    (∀ values cache : Finset Nat,
        gossipTickSend values cache = none ↔ values \ cache = ∅) ∧
    gossipTickSend {1, 2, 3} {1} = some {2, 3} ∧
    gossipOnAck {1} {2, 3} = ({1, 2, 3} : Finset Nat) ∧
    gossipTickSend {1, 2, 3} (gossipOnAck {1} {2, 3}) = none := by
  refine ⟨?_, ?_, by decide, by decide, by decide⟩
  · intro values cache d h
    by_cases he : values \ cache = ∅ <;> simp [gossipTickSend, he] at h
    exact ⟨h.symm, h ▸ he⟩
  · intro values cache
    by_cases he : values \ cache = ∅ <;> simp [gossipTickSend, he]

/-- Witness for C3's theorem: the batch sent on the scenario's first tick
is exactly the delta and is non-empty. -/
theorem gossip_delta_correct_witness :
    ({2, 3} : Finset Nat) = ({1, 2, 3} : Finset Nat) \ {1} ∧
      ({2, 3} : Finset Nat) ≠ ∅ :=
  gossip_delta_correct.1 {1, 2, 3} {1} {2, 3} (by decide)

/-! ### Claim C1 — what a resend puts on the wire -/

/-- A node with one outstanding record: original id 5, last sent at time 0,
no retries yet, destination `n2`, payload 7; the id counter stands at 6. -/
def c1Node : BroadcastNode :=
  { node_id := "n1", id_gen := 6, messages := ∅, neighbours := ["n2"],
    retry_set := ⟨[(5, [5])]⟩,
    awaiting_broadcast_ok := [(5, ⟨5, 0, 0, "n2", 7⟩)] }

/-- C1 (code bug): when the record becomes due, the resend draws the fresh
id 6 (`new_message_id`) and stores it in the record, but the re-emitted
message goes out `.with_id(message_id)` — the prior id 5 — and the resend
chain also registers 5, not 6: the fresh id never reaches the wire or the
chain, so the resend reuses the prior correlation id. -/
theorem c1_resend_reuses_prior_id :
    (c1Node.rebroadcast_on_timeout 1000000000).2 =
      [{ src := "n1", dest := "n2", msg_id := 5, message := 7 }] ∧
    (IdGen.next_id c1Node.id_gen).1 = 6 ∧
    (c1Node.rebroadcast_on_timeout 1000000000).1.awaiting_broadcast_ok =
      [(5, { message_id := 6, last_sent := 1000000000, retries := 1,
             dest := "n2", message := 7 })] ∧
    (c1Node.rebroadcast_on_timeout 1000000000).1.retry_set = ⟨[(5, [5])]⟩ ∧
    (5 : Nat) ≠ 6 := by
  refine ⟨by decide, by decide, by decide, by decide, by decide⟩

/-! ### Claim C2 — ack-chain resolution after a resend -/

/-- A fresh broadcast node `n1` with single neighbour `n2`. -/
def c2Node0 : BroadcastNode :=
  { node_id := "n1", id_gen := 0, messages := ∅, neighbours := ["n2"],
    retry_set := ⟨[]⟩, awaiting_broadcast_ok := [] }

/-- `c2Node0` after handling `broadcast {7}` from client `c0` at time 0:
the send to `n2` goes out with original id `a = 0`. -/
def c2Node1 : BroadcastNode := (c2Node0.handle_request (.broadcast 7) "c0" 0).1

/-- `c2Node1` after the timeout scan at time `10^9`: the record is resent
once, drawing fresh id `b = 1`. -/
def c2Node2 : BroadcastNode := (c2Node1.rebroadcast_on_timeout 1000000000).1

/-- C2 (code bug): with original id `a = 0` resent once producing fresh id
`b = 1` (the record's `message_id` becomes 1), a `broadcast_ok` with
`in_reply_to = 0` does remove the chain and the record, and an
acknowledgment to the unrelated id 99 is a no-op — but a `broadcast_ok`
with `in_reply_to = 1` is also a no-op: `b` was never registered in the
chain (the resend registered the old id), so the record survives and keeps
being retried, contrary to the claim. -/
theorem c2_ack_to_resend_id_is_noop :
    c2Node1.awaiting_broadcast_ok = [(0, ⟨0, 0, 0, "n2", 7⟩)] ∧
    c2Node1.retry_set = ⟨[(0, [0])]⟩ ∧
    (c2Node1.rebroadcast_on_timeout 1000000000).2 =
      [{ src := "n1", dest := "n2", msg_id := 0, message := 7 }] ∧
    c2Node2.awaiting_broadcast_ok = [(0, ⟨1, 1000000000, 1, "n2", 7⟩)] ∧
    (c2Node2.handle_response .broadcastOk (some 1)).awaiting_broadcast_ok =
      c2Node2.awaiting_broadcast_ok ∧
    (c2Node2.handle_response .broadcastOk (some 1)).retry_set =
      c2Node2.retry_set ∧
    (c2Node2.handle_response .broadcastOk (some 0)).awaiting_broadcast_ok = [] ∧
    (c2Node2.handle_response .broadcastOk (some 0)).retry_set = ⟨[]⟩ ∧
    (c2Node2.handle_response .broadcastOk (some 99)).awaiting_broadcast_ok =
      c2Node2.awaiting_broadcast_ok ∧
    (c2Node2.handle_response .broadcastOk (some 99)).retry_set =
      c2Node2.retry_set := by
  refine ⟨by decide, by decide, by decide, by decide, by decide,
    by decide, by decide, by decide, by decide, by decide⟩

/-! ### Claims C6 and C10 — topology handling -/

/-- C6 (confirmed): handling a topology request replaces the neighbour set
by the received topology's entry for this node's id (with the node's own id
removed), the result never contains the node's own id, and when the entry
did not list the node itself the replacement is exactly the entry. -/
theorem topology_excludes_self (n : BroadcastNode)
    (t : List (String × List String)) (src : String) (now : Nat) :
    (n.handle_request (.topology t) src now).2.1 = BResponse.topologyOk ∧
    (n.handle_request (.topology t) src now).1.neighbours =
      ((t.lookup n.node_id).getD []).filter (fun x => x ≠ n.node_id) ∧
    n.node_id ∉ (n.handle_request (.topology t) src now).1.neighbours ∧
    (n.node_id ∉ (t.lookup n.node_id).getD [] →
      (n.handle_request (.topology t) src now).1.neighbours =
        (t.lookup n.node_id).getD []) := by
  have he : (n.handle_request (.topology t) src now).1.neighbours =
      ((t.lookup n.node_id).getD []).filter (fun x => x ≠ n.node_id) := rfl
  refine ⟨rfl, he, ?_, ?_⟩
  · rw [he]
    simp [List.mem_filter]
  · intro h
    rw [he]
    exact List.filter_eq_self.mpr
      (fun a ha => by simp; exact fun e => h (e ▸ ha))

/-- A small concrete node used to instantiate the topology theorems. -/
def topoWitnessNode : BroadcastNode :=
  { node_id := "n1"
    id_gen := 0
    messages := ∅
    neighbours := ["n9"]
    retry_set := ⟨[]⟩
    awaiting_broadcast_ok := [] }

/-- Witness for C6's theorem: node `n1` with the self-free topology entry
`["n2"]` ends up with neighbours exactly `["n2"]`. -/
theorem topology_excludes_self_witness :
    (topoWitnessNode.handle_request
      (.topology [("n1", ["n2"])]) "c0" 0).1.neighbours = ["n2"] := by
  have h := (topology_excludes_self topoWitnessNode
    [("n1", ["n2"])] "c0" 0).2.2.2 (by decide)
  rw [h]
  rfl

/-- C10 (confirmed): a topology request whose map has no entry for this
node's id leaves the node with the empty neighbour set — whatever
neighbours it held before are discarded — and the reply is `topology_ok`. -/
theorem topology_missing_entry_empties_neighbours (n : BroadcastNode)
    (t : List (String × List String)) (src : String) (now : Nat)
    (h : t.lookup n.node_id = none) :
    (n.handle_request (.topology t) src now).1.neighbours = [] ∧
    (n.handle_request (.topology t) src now).2.1 = BResponse.topologyOk := by
  have he : (n.handle_request (.topology t) src now).1.neighbours =
      ((t.lookup n.node_id).getD []).filter (fun x => x ≠ n.node_id) := rfl
  rw [he, h]
  exact ⟨rfl, rfl⟩

/-- Witness for C10's theorem: node `n1` holding neighbour `n9` receives a
topology that only mentions `n2`; its neighbour set becomes empty. -/
theorem topology_missing_entry_empties_neighbours_witness :
    ([("n2", ["n3"])] : List (String × List String)).lookup "n1" = none ∧
    ((topoWitnessNode.handle_request
        (.topology [("n2", ["n3"])]) "c0" 0).1.neighbours = [] ∧
      (topoWitnessNode.handle_request
        (.topology [("n2", ["n3"])]) "c0" 0).2.1 = BResponse.topologyOk) :=
  ⟨by decide,
    topology_missing_entry_empties_neighbours topoWitnessNode
      [("n2", ["n3"])] "c0" 0 (by decide)⟩

/-! ### Claim C5 — the exponential-backoff due condition -/

/-- The timeout scan emits exactly one resend per record whose elapsed time
reaches `BROADCAST_RETRY_TIMEOUT * pow2u32 retries`, in scan order. -/
theorem rebroadcastLoop_sends (nid : String) (now : Nat) :
    ∀ (ws : List (Nat × BroadcastOkWaiter)) (gen : Nat) (rs : RetrySet),
      (rebroadcastLoop nid now ws gen rs).2.2.2 =
        (ws.filter (fun p =>
          decide (BROADCAST_RETRY_TIMEOUT * pow2u32 p.2.retries ≤
            now - p.2.last_sent))).map
          (fun p => { src := nid, dest := p.2.dest, msg_id := p.2.message_id,
                      message := p.2.message }) := by
  intro ws
  induction ws with
  | nil => intro gen rs; rfl
  | cons hd tl ih =>
      intro gen rs
      obtain ⟨o, w⟩ := hd
      by_cases h : now - w.last_sent < BROADCAST_RETRY_TIMEOUT * pow2u32 w.retries
      · have hd : decide (BROADCAST_RETRY_TIMEOUT * pow2u32 w.retries ≤
            now - w.last_sent) = false := by
          simp [Nat.not_le]
          omega
        simp [rebroadcastLoop, if_pos h, List.filter_cons, hd, ih]
      · have hd : decide (BROADCAST_RETRY_TIMEOUT * pow2u32 w.retries ≤
            now - w.last_sent) = true := by
          simp [Nat.not_lt.mp h]
        simp [rebroadcastLoop, if_neg h, List.filter_cons, hd, ih]

/-- C5 (corrected): during a scan, the records resent are exactly those
with `elapsed >= BROADCAST_RETRY_TIMEOUT * (2 ^ retries % 2 ^ 32)` — the
code computes the factor with `2u32.pow(retries)`, which wraps modulo
`2 ^ 32` — and for every retry count `r <= 31` that factor is exactly
`2 ^ r`, so the claim's condition holds below the `u32` overflow. -/
theorem rebroadcast_due_condition (n : BroadcastNode) (now : Nat) :
    (n.rebroadcast_on_timeout now).2 =
      (n.awaiting_broadcast_ok.filter (fun p =>
        decide (BROADCAST_RETRY_TIMEOUT * pow2u32 p.2.retries ≤
          now - p.2.last_sent))).map
        (fun p => { src := n.node_id, dest := p.2.dest,
                    msg_id := p.2.message_id, message := p.2.message }) ∧
    ∀ r : Nat, r ≤ 31 → pow2u32 r = 2 ^ r := by
  refine ⟨rebroadcastLoop_sends n.node_id now n.awaiting_broadcast_ok
    n.id_gen n.retry_set, ?_⟩
  intro r hr
  have : 2 ^ r < u32Mod := by
    have h1 : 2 ^ r ≤ 2 ^ 31 := Nat.pow_le_pow_right (by omega) hr
    have h2 : (2 : Nat) ^ 31 < 2 ^ 32 := by norm_num
    simp only [u32Mod]
    omega
  simp [pow2u32, Nat.mod_eq_of_lt this]

/-- Witness for C5's theorem on `c1Node` at time `10^9`: the single record
(retry count 0, elapsed exactly the base timeout) is due, and `pow2u32`
agrees with `2 ^ r` at `r = 0`. -/
theorem rebroadcast_due_condition_witness :
    (c1Node.rebroadcast_on_timeout 1000000000).2 =
      [{ src := "n1", dest := "n2", msg_id := 5, message := 7 }] ∧
    pow2u32 0 = 2 ^ 0 := by
  have h := rebroadcast_due_condition c1Node 1000000000
  exact ⟨h.1.trans (by decide), h.2 0 (by decide)⟩

/-- A node with one outstanding record whose retry count is 32. -/
def c5Node : BroadcastNode :=
  { node_id := "n1", id_gen := 0, messages := ∅, neighbours := [],
    retry_set := ⟨[]⟩, awaiting_broadcast_ok := [(0, ⟨0, 0, 32, "n2", 7⟩)] }

/-- C5 counterexample: a record with retry count 32 and elapsed time 0 is
resent by the scan even though `0 < BROADCAST_RETRY_TIMEOUT * 2 ^ 32` —
`2u32.pow(32)` wraps to 0, so the claimed condition
`elapsed >= base_timeout * 2 ^ r` fails for `r = 32` (and a debug build
would panic on the overflow instead). -/
theorem rebroadcast_due_condition_overflow :
    (c5Node.rebroadcast_on_timeout 0).2 =
      [{ src := "n1", dest := "n2", msg_id := 0, message := 7 }] ∧
    (0 : Nat) - 0 < BROADCAST_RETRY_TIMEOUT * 2 ^ 32 := by
  refine ⟨by decide, by decide⟩

/-! ### Claim C7 — the broadcast fan-out -/

theorem bnl_node_id (src : String) (v now : Nat) :
    ∀ (nbrs : List String) (n : BroadcastNode),
      (broadcastNeighbourLoop src v now nbrs n).1.node_id = n.node_id := by
  intro nbrs
  induction nbrs with
  | nil => intro n; rfl
  | cons hd tl ih =>
      intro n
      by_cases h : hd = src <;> simp [broadcastNeighbourLoop, h, ih]

theorem bnl_messages (src : String) (v now : Nat) :
    ∀ (nbrs : List String) (n : BroadcastNode),
      (broadcastNeighbourLoop src v now nbrs n).1.messages = n.messages := by
  intro nbrs
  induction nbrs with
  | nil => intro n; rfl
  | cons hd tl ih =>
      intro n
      by_cases h : hd = src <;> simp [broadcastNeighbourLoop, h, ih]

theorem bnl_sends_dest (src : String) (v now : Nat) :
    ∀ (nbrs : List String) (n : BroadcastNode),
      (broadcastNeighbourLoop src v now nbrs n).2.map (fun s => s.dest) =
        nbrs.filter (fun x => x ≠ src) := by
  intro nbrs
  induction nbrs with
  | nil => intro n; rfl
  | cons hd tl ih =>
      intro n
      by_cases h : hd = src <;>
        simp [broadcastNeighbourLoop, h, ih, List.filter_cons]

theorem bnl_sends_mem (src : String) (v now : Nat) :
    ∀ (nbrs : List String) (n : BroadcastNode) (s : SentBroadcast),
      s ∈ (broadcastNeighbourLoop src v now nbrs n).2 →
      s.message = v ∧ s.src = n.node_id ∧ s.dest ≠ src := by
  intro nbrs
  induction nbrs with
  | nil => intro n s hs; simp [broadcastNeighbourLoop] at hs
  | cons hd tl ih =>
      intro n s hs
      by_cases h : hd = src
      · rw [broadcastNeighbourLoop] at hs
        rw [if_pos h] at hs
        exact ih _ s hs
      · rw [broadcastNeighbourLoop] at hs
        rw [if_neg h] at hs
        rcases List.mem_cons.mp hs with rfl | hs
        · exact ⟨rfl, rfl, h⟩
        · simpa using ih _ s hs

theorem bnl_awaiting (src : String) (v now : Nat) :
    ∀ (nbrs : List String) (n : BroadcastNode),
      (broadcastNeighbourLoop src v now nbrs n).1.awaiting_broadcast_ok =
        n.awaiting_broadcast_ok ++
          (broadcastNeighbourLoop src v now nbrs n).2.map
            (fun s => (s.msg_id, ⟨s.msg_id, now, 0, s.dest, v⟩)) := by
  intro nbrs
  induction nbrs with
  | nil => intro n; simp [broadcastNeighbourLoop]
  | cons hd tl ih =>
      intro n
      by_cases h : hd = src
      · simp [broadcastNeighbourLoop, h, ih]
      · simp [broadcastNeighbourLoop, h, ih]

theorem handle_request_broadcast_sends (n : BroadcastNode) (v : Nat)
    (src : String) (now : Nat) :
    (n.handle_request (.broadcast v) src now).2.2 =
      (n.rebroadcast_on_timeout now).2 ++
        (broadcastNeighbourLoop src v now n.neighbours
          { (n.rebroadcast_on_timeout now).1 with
            messages := insert v (n.rebroadcast_on_timeout now).1.messages }).2 :=
  rfl

theorem handle_request_broadcast_state (n : BroadcastNode) (v : Nat)
    (src : String) (now : Nat) :
    (n.handle_request (.broadcast v) src now).1 =
      (broadcastNeighbourLoop src v now n.neighbours
        { (n.rebroadcast_on_timeout now).1 with
          messages := insert v (n.rebroadcast_on_timeout now).1.messages }).1 :=
  rfl

/-- C7 (confirmed): handling `broadcast {v}` arriving from `src` adds `v` to
the local value set and emits, beyond the timeout-scan resends, exactly one
send per current neighbour other than `src`, each carrying payload `v` from
this node and none addressed to `src`; each such send gets an outstanding
acknowledgment record keyed by its correlation id.  The statement is
universal in the prior state, so it also holds when `v` was already in the
value set. -/
theorem broadcast_fanout (n : BroadcastNode) (v : Nat) (src : String)
    (now : Nat) :
    (n.handle_request (.broadcast v) src now).2.1 = BResponse.broadcastOk ∧
    (n.handle_request (.broadcast v) src now).1.messages =
      insert v n.messages ∧
    ((n.handle_request (.broadcast v) src now).2.2.drop
        (n.rebroadcast_on_timeout now).2.length).map (fun s => s.dest) =
      n.neighbours.filter (fun x => x ≠ src) ∧
    (∀ s ∈ (n.handle_request (.broadcast v) src now).2.2.drop
        (n.rebroadcast_on_timeout now).2.length,
      s.message = v ∧ s.src = n.node_id ∧ s.dest ≠ src) ∧
    (n.handle_request (.broadcast v) src now).1.awaiting_broadcast_ok =
      (n.rebroadcast_on_timeout now).1.awaiting_broadcast_ok ++
        ((n.handle_request (.broadcast v) src now).2.2.drop
          (n.rebroadcast_on_timeout now).2.length).map
          (fun s => (s.msg_id, ⟨s.msg_id, now, 0, s.dest, v⟩)) := by
  have hdrop : (n.handle_request (.broadcast v) src now).2.2.drop
      (n.rebroadcast_on_timeout now).2.length =
      (broadcastNeighbourLoop src v now n.neighbours
        { (n.rebroadcast_on_timeout now).1 with
          messages := insert v (n.rebroadcast_on_timeout now).1.messages }).2 := by
    rw [handle_request_broadcast_sends]
    exact List.drop_left _ _
  refine ⟨rfl, ?_, ?_, ?_, ?_⟩
  · rw [handle_request_broadcast_state, bnl_messages]
    rfl
  · rw [hdrop, bnl_sends_dest]
  · intro s hs
    rw [hdrop] at hs
    simpa using bnl_sends_mem src v now n.neighbours _ s hs
  · rw [handle_request_broadcast_state, bnl_awaiting, hdrop]

/-- Witness for C7's theorem: node `n1` with neighbours `n2, p, n3`
receives `broadcast {5}` from `p`; the fan-out goes to `n2` and `n3` only,
and the send to `n2` carries payload 5 from `n1`. -/
theorem broadcast_fanout_witness :
    ((({ node_id := "n1"
         id_gen := 0
         messages := ∅
         neighbours := ["n2", "p", "n3"]
         retry_set := ⟨[]⟩
         awaiting_broadcast_ok := [] } : BroadcastNode).handle_request
            (.broadcast 5) "p" 0).2.2.drop 0).map (fun s => s.dest) =
      ["n2", "n3"] ∧
    ((⟨"n1", "n2", 0, 5⟩ : SentBroadcast).message = 5 ∧
      (⟨"n1", "n2", 0, 5⟩ : SentBroadcast).src = "n1" ∧
      (⟨"n1", "n2", 0, 5⟩ : SentBroadcast).dest ≠ "p") := by
  have h := broadcast_fanout
    { node_id := "n1"
      id_gen := 0
      messages := ∅
      neighbours := ["n2", "p", "n3"]
      retry_set := ⟨[]⟩
      awaiting_broadcast_ok := [] } 5 "p" 0
  refine ⟨?_, h.2.2.2.1 ⟨"n1", "n2", 0, 5⟩ (by decide)⟩
  exact (h.2.2.1).trans (by decide)

/-! ### Claim C8 — drain-loop dispatch -/

/-- C8 (confirmed): for any drained `Incoming`, a request is dispatched to
the handler's request function and — when it succeeds — the runtime emits
its result wrapped in a response envelope with src and dest swapped and
`in_reply_to` equal to the request's `msg_id`; a response is dispatched to
the handler's response function and an event to the handler's event
function, in both cases with no runtime-emitted reply. -/
theorem runStep_dispatch {S Req Res E Out Err : Type}
    (node : NodeImpl S Req Res E Out Err) (s : S) :
    (∀ (m : WMessage (RequestResponse Req Res)) (req : Req),
        m.body.kind = RequestResponse.request req →
        runStep node s (.message m) =
          (node.handle_request s req m.src).map
            (fun p => (p.1, p.2.2, some (specReplyEnvelope m p.2.1)))) ∧
    (∀ (m : WMessage (RequestResponse Req Res)) (r : WResponse Res),
        m.body.kind = RequestResponse.response r →
        runStep node s (.message m) =
          (node.handle_response s r.inner r.in_reply_to).map
            (fun p => (p.1, p.2,
              (none : Option (WMessage (WResponse Res)))))) ∧
    (∀ e : E,
        runStep node s (.event e) =
          (node.handle_event s e).map
            (fun p => (p.1, p.2,
              (none : Option (WMessage (WResponse Res)))))) := by
  refine ⟨?_, ?_, ?_⟩
  · intro m req hm
    obtain ⟨msrc, mdest, mid, mkind⟩ := m
    simp only at hm
    subst hm
    cases hreq : node.handle_request s req msrc <;>
      simp [runStep, specReplyEnvelope, hreq, Except.map]
  · intro m r hm
    obtain ⟨msrc, mdest, mid, mkind⟩ := m
    simp only at hm
    subst hm
    cases hres : node.handle_response s r.inner r.in_reply_to <;>
      simp [runStep, hres, Except.map]
  · intro e
    cases hev : node.handle_event s e <;> simp [runStep, hev, Except.map]

/-- A tiny concrete `Node` implementation used to instantiate
`runStep_dispatch`: the request handler adds the request to the state,
replies with its double, and sends one message of its own. -/
def demoNode : NodeImpl Nat Nat Nat Nat Nat String :=
  { handle_request := fun s req _ => .ok (s + req, req * 2, [req])
    handle_response := fun s _ _ => .ok (s, [])
    handle_event := fun s _ => .ok (s, []) }

/-- A concrete inbound request message for the witness. -/
def demoMsg : WMessage (RequestResponse Nat Nat) :=
  { src := "c1", dest := "n1", body := { id := some 9, kind := .request 4 } }

/-- Witness for C8's theorem on `demoNode` and `demoMsg`: the handler's
sends pass through, and the runtime reply has src `n1`, dest `c1` and
`in_reply_to = 9`. -/
theorem runStep_dispatch_witness :
    runStep demoNode 0 (.message demoMsg) =
      .ok (4, [4], some
        { src := "n1", dest := "c1",
          body := { id := some 9, kind := { in_reply_to := some 9,
                                            inner := 8 } } }) ∧
    runStep demoNode 0 (.event 3) = .ok (0, [], none) :=
  ⟨((runStep_dispatch demoNode 0).1 demoMsg 4 rfl).trans rfl,
    ((runStep_dispatch demoNode 0).2.2 3).trans rfl⟩
